import Mathlib

/-!
Verification of the lambda event handler in `src/lambda/index.py`.

The source module is:

```
    (line 1)  import json

    def handler(event, context):
        print("File uploaded")
        secret_arn = os.environ.get("SECRETS_MANAGER_ARN")

        print(f"Secret ARN: {secret_arn}")

        return {
            "statusCode": 200,
            "body": json.dumps("Success")
        }
```

The module imports only `json`; the global name `os` is never bound, so
at run time CPython executes the first `print`, then raises
`NameError: name 'os' is not defined` on the `os.environ.get` line.
The shallow embedding below models the module faithfully: the process
environment is a map from variable names to optional string values, the
log is the list of lines printed so far, and global-name resolution
consults the set of names bound at module level (here, just `json`).
`handler` threads this world state explicitly and returns either a
response record or the Python exception.
-/

/-- The process-wide environment, as consulted by `os.environ.get`:
a variable name maps to its value, or to `none` when unset. -/
def Env : Type := String → Option String

/-- The observable world state an invocation runs in: the (read-only, as it
turns out) process environment, and the log lines emitted so far. -/
structure World where
  env : Env
  log : List String

/-- The record literal returned by `handler` on lines 9 to 12 of the source:
a numeric status code and a string body. -/
structure Response where
  statusCode : Nat
  body : String
deriving DecidableEq

/-- A Python runtime exception surfaced by the module. The only one this
module can raise is a `NameError` for an unbound global name. -/
inductive PyError where
  | nameError (missing : String)
deriving DecidableEq

/-- The global names bound at module level of `src/lambda/index.py`: the
single statement `import json` binds `json` and nothing else. In particular
`os` is absent. -/
def moduleGlobals : List String := ["json"]

/-- Python global-name resolution for this module: a name evaluates
successfully when it is bound at module level, and raises `NameError`
otherwise. -/
def resolveGlobal (n : String) : Except PyError Unit :=
  if n ∈ moduleGlobals then Except.ok () else Except.error (PyError.nameError n)

/-- The fixed key of the environment lookup on line 5 of the source:
`os.environ.get("SECRETS_MANAGER_ARN")`. -/
def secretsKey : String := "SECRETS_MANAGER_ARN"

/-- Hexadecimal digit character, as used by Python string escaping. -/
def hexDigit (n : Nat) : Char :=
  if n < 10 then Char.ofNat (n + 48) else Char.ofNat (n - 10 + 97)

/-- Four-digit lowercase hexadecimal rendering of a code unit. -/
def hex4 (n : Nat) : String :=
  String.mk [hexDigit (n / 4096 % 16), hexDigit (n / 256 % 16),
             hexDigit (n / 16 % 16), hexDigit (n % 16)]

/-- Escaping of one character inside a JSON string literal, following
`json.dumps` with its default `ensure_ascii=True`: the two-character escapes
for quote, backslash and common control characters, `\uXXXX` for other
control or non-ASCII characters (as a surrogate pair beyond the BMP), and
the character itself otherwise. -/
def jsonEscapeChar (c : Char) : String :=
  if c = Char.ofNat 34 then String.mk [Char.ofNat 92, Char.ofNat 34]
  else if c = Char.ofNat 92 then String.mk [Char.ofNat 92, Char.ofNat 92]
  else if c = Char.ofNat 10 then String.mk [Char.ofNat 92, 'n']
  else if c = Char.ofNat 13 then String.mk [Char.ofNat 92, 'r']
  else if c = Char.ofNat 9 then String.mk [Char.ofNat 92, 't']
  else if c = Char.ofNat 8 then String.mk [Char.ofNat 92, 'b']
  else if c = Char.ofNat 12 then String.mk [Char.ofNat 92, 'f']
  else if c.toNat < 32 ∨ c.toNat > 126 then
    if c.toNat ≥ 65536 then
      let n := c.toNat - 65536
      String.mk [Char.ofNat 92, 'u'] ++ hex4 (55296 + n / 1024) ++
      String.mk [Char.ofNat 92, 'u'] ++ hex4 (56320 + n % 1024)
    else String.mk [Char.ofNat 92, 'u'] ++ hex4 c.toNat
  else String.singleton c

namespace json

/-- `json.dumps` applied to a Python `str`, as called on line 11 of the
source: the value surrounded by double quotes, each character escaped. -/
def dumps (s : String) : String :=
  String.singleton (Char.ofNat 34) ++ String.join (s.data.map jsonEscapeChar)
    ++ String.singleton (Char.ofNat 34)

end json

/-- Python `str()` of the value held by `secret_arn`, as interpolated by the
f-string on line 7: `None` renders as the text `None`, a string renders
verbatim. -/
def pyStr (v : Option String) : String :=
  match v with
  | none => "None"
  | some s => s

/-- Shallow embedding of `handler(event, context)` from
`src/lambda/index.py`, lines 3 to 12. The `event` and `context` parameters
are opaque and of arbitrary type; the body never touches them (and the
source performs no mutation on them, so modelling them as immutable values
is faithful). Execution order follows the source: line 4 prints the fixed
upload message; line 5 evaluates the global name `os`, which is unbound in
this module, so the embedding propagates the `NameError` there, leaving the
rest of the body (the environment read, the second print, and the return of
the response record) on the branch taken only if `os` resolved. -/
def handler {α β : Type} (event : α) (context : β) (w : World) :
    Except PyError Response × World :=
  let w1 : World := ⟨w.env, w.log ++ ["File uploaded"]⟩
  match resolveGlobal "os" with
  | Except.error e => (Except.error e, w1)
  | Except.ok _ =>
    let secret_arn : Option String := w1.env secretsKey
    let w2 : World := ⟨w1.env, w1.log ++ ["Secret ARN: " ++ pyStr secret_arn]⟩
    match resolveGlobal "json" with
    | Except.error e => (Except.error e, w2)
    | Except.ok _ =>
      (Except.ok ⟨200, json.dumps "Success"⟩, w2)

/-- The empty process environment: no variable is set. -/
def emptyEnv : Env := fun _ => none

/-- A process environment whose only set variable is the secrets key, with
the example value from the spec's Scenario A. -/
def arnEnv : Env :=
  fun k => if k = "SECRETS_MANAGER_ARN" then some "arn:aws:secretsmanager:...:secret:foo" else none

/-- One full invocation of the handler viewed as a transformer of the world
state, used to express repeated invocation. -/
def invoke {α β : Type} (event : α) (context : β) : World → World :=
  fun w => (handler event context w).2

/-- The result component of an invocation is the same `NameError` for every
world state: the unbound global `os` is hit before the environment or the
inputs are ever consulted. -/
theorem handler_result_eq {α β : Type} (event : α) (context : β) (w : World) :
    (handler event context w).1 = Except.error (PyError.nameError "os") := rfl

/-- Iterated invocation never changes the process environment. -/
theorem invoke_env_eq {α β : Type} (event : α) (context : β) (n : Nat) (w : World) :
    ((invoke event context)^[n] w).env = w.env := by
  induction n generalizing w with
  | zero => rfl
  | succ k ih =>
    rw [Function.iterate_succ_apply]
    rw [ih]
    rfl

/-- Claim C1: the claim says every invocation returns the record
`{statusCode: 200, body: "\"Success\""}`. The code instead raises
`NameError: name 'os' is not defined` on line 5, because the module only
imports `json`. This theorem evaluates the embedded handler at a concrete
input (unit event and context, empty environment, empty log): the outcome
is the `NameError`, not a response, and only the first log line was
emitted. -/
theorem C1_code_raises :
    handler () () ⟨emptyEnv, []⟩ =
      (Except.error (PyError.nameError "os"), ⟨emptyEnv, ["File uploaded"]⟩) := rfl

/-- Claim C2: the claim says the handler raises no exception on any input.
The code raises `NameError: name 'os' is not defined` on every invocation;
this theorem evaluates the embedded handler at a concrete input and shows
the raised exception. -/
theorem C2_code_raises :
    (handler () 0 ⟨emptyEnv, []⟩).1 = Except.error (PyError.nameError "os") := rfl

/-- Claim C3: the claim says every invocation emits exactly two log lines.
The code emits the first line and then raises before the second `print`;
this theorem evaluates the embedded handler at a concrete input and shows
the log holds exactly the one fixed upload line. -/
theorem C3_code_one_log_line :
    (handler 0 0 ⟨emptyEnv, []⟩).2.log = ["File uploaded"] := rfl

/-- Claim C4: the handler never mutates the event argument, the context
argument, or the process-wide environment state. The embedding represents
`event` and `context` as immutable values (the source contains no
assignment to or method call on either), and this theorem proves the
environment component of the world after any invocation equals the
environment before it. -/
theorem C4_no_mutation {α β : Type} (event : α) (context : β) (w : World) :
    ((handler event context w).2).env = w.env := rfl

/-- Claim C5: invoking the handler repeatedly from the same starting inputs
yields the same result each time, with no state accumulating between calls
that could change it. For every number of prior invocations `n`, the result
of the next invocation equals the result of the first, and the process
environment is unchanged by the `n` invocations. (The outcome every time is
the `NameError` raised by the unbound global `os`; its identity across
repetitions is what this theorem establishes.) -/
theorem C5_idempotent {α β : Type} (event : α) (context : β) (w : World) (n : Nat) :
    (handler event context ((invoke event context)^[n] w)).1
      = (handler event context w).1 ∧
    ((invoke event context)^[n] w).env = w.env := by
  refine ⟨?_, invoke_env_eq event context n w⟩
  rw [handler_result_eq, handler_result_eq]

/-- Claim C7: the handler's observable behavior does not depend on the
event or context arguments. For any two invocations from the same world
state, with arbitrary (even differently typed) event and context values,
the full outcome — result and final world, hence response and log — is
identical. -/
theorem C7_input_noninterference {a1 b1 a2 b2 : Type}
    (e1 : a1) (c1 : b1) (e2 : a2) (c2 : b2) (w : World) :
    handler e1 c1 w = handler e2 c2 w := rfl

/-- Claim C6: the claim says that with the environment key unset the
handler raises no error, logs a second line reflecting the missing value,
and returns status 200. The code raises `NameError: name 'os' is not
defined` before the environment is ever read; this theorem evaluates the
embedded handler with the empty environment and shows the exception and the
single-line log. -/
theorem C6_code_raises :
    (handler 0 () ⟨emptyEnv, []⟩).1 = Except.error (PyError.nameError "os") ∧
    (handler 0 () ⟨emptyEnv, []⟩).2.log = ["File uploaded"] :=
  ⟨rfl, rfl⟩

/-- Claim C8: the claim says that with the key set to the example ARN the
second log line contains that string and the response is status 200. The
code raises `NameError` before the second `print`; this theorem evaluates
the embedded handler with the key set to the example ARN and shows the
exception and that the log holds only the first line. -/
theorem C8_code_raises :
    (handler () () ⟨arnEnv, []⟩).1 = Except.error (PyError.nameError "os") ∧
    (handler () () ⟨arnEnv, []⟩).2.log = ["File uploaded"] :=
  ⟨rfl, rfl⟩

/-- Claim C9: the environment lookup in the source uses exactly the key
`SECRETS_MANAGER_ARN`, and the handler's observable behavior depends on the
environment only through that key: two invocations from environments that
agree on it produce the same result and the same log. (In the code as
written the dependence is in fact empty — the `NameError` on line 5 means
the lookup is never executed — so agreement on the key is more than
sufficient.) -/
theorem C9_env_key_only {α β : Type} (event : α) (context : β)
    (env1 env2 : Env) (log : List String)
    (h : env1 secretsKey = env2 secretsKey) :
    secretsKey = "SECRETS_MANAGER_ARN" ∧
    (handler event context ⟨env1, log⟩).1 = (handler event context ⟨env2, log⟩).1 ∧
    (handler event context ⟨env1, log⟩).2.log = (handler event context ⟨env2, log⟩).2.log :=
  ⟨rfl, rfl, rfl⟩

/-- Witness for C9 at concrete inputs: the empty environment and an
environment that sets only an unrelated variable agree on the secrets key,
and the handler behaves identically under the two. -/
theorem C9_env_key_only_witness :
    secretsKey = "SECRETS_MANAGER_ARN" ∧
    (handler () () ⟨emptyEnv, []⟩).1
      = (handler () () ⟨fun k => if k = "OTHER_VAR" then some "x" else none, []⟩).1 ∧
    (handler () () ⟨emptyEnv, []⟩).2.log
      = (handler () () ⟨fun k => if k = "OTHER_VAR" then some "x" else none, []⟩).2.log :=
  C9_env_key_only () () emptyEnv
    (fun k => if k = "OTHER_VAR" then some "x" else none) [] rfl

/-- Claim C10: the claim says the second log line is exactly
`Secret ARN: None` when the key is absent and `Secret ARN: ` followed by
the value when present. The code never emits a second log line at all — it
raises `NameError` on line 5 — and this theorem evaluates the embedded
handler in both an absent-key and a present-key environment, showing a
one-line log in each case. -/
theorem C10_code_no_second_line :
    (handler (0, 0) () ⟨emptyEnv, []⟩).2.log = ["File uploaded"] ∧
    (handler (0, 0) () ⟨arnEnv, []⟩).2.log = ["File uploaded"] :=
  ⟨rfl, rfl⟩
